import Mathlib

set_option maxHeartbeats 1000000

/-!
Shallow embedding of the VisionFit backend (src/main.py, src/schemas.py).

The document store (MongoDB) is modelled as association lists keyed by id
strings, with inserts prepending and `update_one`/`find_one` acting on the
matching key.  `bson.ObjectId(s)` accepts exactly the 24-character hex
strings, so `oid` checks that shape and fails with a 400 error otherwise,
as the source's `oid` helper does.  Randomness (fresh document ids, API-key
suffixes), the password hash, the JWT decoder and the upstream HTTP response
are passed in as explicit parameters, since they come from outside the
program text.  HTTP endpoints become functions from the request data and the
store to `Except ApiError result` together with the updated store; the
try-on endpoint additionally returns the ordered list of writes it performed
on the `tryonsession` collection, so that lifecycle claims can speak about
the order and number of those writes.
-/

namespace VisionFit

/-- Python string slicing `s[:n]`: the first `n` characters. -/
def pyTake (s : String) (n : Nat) : String :=
  String.mk (s.toList.take n)

/-- Python `str.lower()` (the inputs at issue are ASCII). -/
def pyLower (s : String) : String :=
  String.mk (s.toList.map Char.toLower)

/-- Python `str.strip()`: remove whitespace from both ends. -/
def pyStrip (s : String) : String :=
  String.mk (((s.toList.dropWhile Char.isWhitespace).reverse.dropWhile Char.isWhitespace).reverse)

/-- Python `str.replace(" ", "-")`: the pattern is a single character, so
this is a character-wise substitution. -/
def pySpaceToDash (s : String) : String :=
  String.mk (s.toList.map (fun c => if c = ' ' then '-' else c))

/-- Whether the first list is an initial segment of the second
(Python `str.startswith`). -/
def leadsWith : List Char → List Char → Bool
  | [], _ => true
  | _ :: _, [] => false
  | p :: ps, c :: cs => p == c && leadsWith ps cs

/-- Hex characters accepted inside a BSON ObjectId string. -/
def isHexChar (c : Char) : Bool :=
  c.isDigit || ('a' ≤ c && c ≤ 'f') || ('A' ≤ c && c ≤ 'F')

/-- A string parses as a `bson.ObjectId` iff it is 24 hex characters. -/
def isValidOid (s : String) : Bool :=
  s.length == 24 && s.toList.all isHexChar

/-- Error taxonomy of the service: each constructor carries the `detail`
string of the corresponding `HTTPException`. -/
inductive ApiError where
  | badRequest (detail : String)
  | unauthorized (detail : String)
  | nfError (detail : String)
  | conflict (detail : String)
  | upstream (detail : String)
deriving DecidableEq, Repr

/-- HTTP status code of each error, as raised in `main.py`. -/
def ApiError.statusCode : ApiError → Nat
  | .badRequest _ => 400
  | .unauthorized _ => 401
  | .nfError _ => 404
  | .conflict _ => 409
  | .upstream _ => 502

/-- The source's `oid` helper: parse an id string or fail with 400. -/
def oid (s : String) : Except ApiError String :=
  if isValidOid s then .ok s else .error (.badRequest "Invalid id")

/-- Organization plans (schemas.py). -/
inductive Plan where
  | free | pro | enterprise
deriving DecidableEq, Repr

/-- Organization record (schemas.py). -/
structure Organization where
  name : String
  slug : String
  plan : Plan
deriving DecidableEq, Repr

/-- ApiKey record (schemas.py). -/
structure ApiKey where
  organization_id : String
  label : String
  key : String
  scopes : List String
  active : Bool
deriving DecidableEq, Repr

/-- User roles (schemas.py). -/
inductive Role where
  | admin | member
deriving DecidableEq, Repr

/-- User record (schemas.py). -/
structure User where
  name : String
  email : String
  password_hash : String
  organization_id : String
  role : Role
deriving DecidableEq, Repr

/-- Product types (schemas.py). -/
inductive ProductType where
  | eyewear | headset | hat | jewelry
deriving DecidableEq, Repr

/-- Product record (schemas.py).  URLs are kept as plain strings. -/
structure Product where
  title : String
  sku : Option String
  type : ProductType
  model_url : Option String
  thumbnail_url : Option String
deriving DecidableEq, Repr

/-- Session states (schemas.py). -/
inductive SessionStatus where
  | queued | processing | completed | failed
deriving DecidableEq, Repr

/-- TryOnSession record (schemas.py). -/
structure TryOnSession where
  product_id : String
  mode : String
  source_image_url : Option String
  status : SessionStatus
  result_url : Option String
  message : Option String
deriving DecidableEq, Repr

/-- The document store: one association list per collection, keyed by the
document id.  Inserting prepends, matching the uniqueness of Mongo ids. -/
structure DB where
  organizations : List (String × Organization)
  users : List (String × User)
  apikeys : List (String × ApiKey)
  products : List (String × Product)
  sessions : List (String × TryOnSession)
deriving DecidableEq, Repr

/-- The empty store. -/
def emptyDB : DB :=
  { organizations := [], users := [], apikeys := [], products := [], sessions := [] }

/-- Mongo `find_one` by `_id` over an association list. -/
def lookup (l : List (String × α)) (k : String) : Option α :=
  (l.find? (fun p => p.1 == k)).map (fun p => p.2)

/-- Mongo `update_one({"_id": id}, {"$set": ...})` over the session
collection: rewrite the document at the given id. -/
def updSessions (db : DB) (id : String) (f : TryOnSession → TryOnSession) : DB :=
  { db with sessions := db.sessions.map (fun p => if p.1 == id then (p.1, f p.2) else p) }

/-- Process-wide environment configuration read by the endpoints. -/
structure Config where
  tryonRequireApiKey : Bool
  falLive : Bool
  falKey : Option String
deriving DecidableEq, Repr

/-- Python truthiness of an optional header string: `None` and `""` are falsy. -/
def truthy : Option String → Bool
  | none => false
  | some s => s ≠ ""

/-- Request body of POST /v1/auth/signup. -/
structure SignupBody where
  name : String
  email : String
  password : String
  organization_name : String
deriving DecidableEq, Repr

/-- Claims embedded in the issued JWT (the signed payload of `create_token`). -/
structure TokenClaims where
  sub : String
  org : String
  role : String
deriving DecidableEq, Repr

/-- The source's slug derivation in `signup`:
`body.organization_name.lower().strip().replace(" ", "-")`. -/
def slugOf (organization_name : String) : String :=
  pySpaceToDash (pyStrip (pyLower organization_name))

/-- POST /v1/auth/signup.  `org_id`, `user_id`, `key_id` are the ids the
store assigns to the three inserted documents, `key_suffix` is the random
`secrets.token_urlsafe(24)` value and `password_hash` the bcrypt hash of the
submitted password; all are parameters because they are produced outside the
program text.  Returns the token claims (or the error) and the new store. -/
def signup (db : DB) (org_id user_id key_id : String) (key_suffix : String)
    (password_hash : String) (body : SignupBody) :
    Except ApiError TokenClaims × DB :=
  if (db.users.find? (fun p => p.2.email == body.email)).isSome then
    (.error (.conflict "Email already registered"), db)
  else
    let slug := slugOf body.organization_name
    let org : Organization := { name := body.organization_name, slug := slug, plan := .free }
    let db1 : DB := { db with organizations := (org_id, org) :: db.organizations }
    let user : User :=
      { name := body.name, email := body.email, password_hash := password_hash,
        organization_id := org_id, role := .admin }
    let db2 : DB := { db1 with users := (user_id, user) :: db1.users }
    let api_key : ApiKey :=
      { organization_id := org_id, label := "Default Key", key := "vf_" ++ key_suffix,
        scopes := ["tryon:read", "tryon:write"], active := true }
    let db3 : DB := { db2 with apikeys := (key_id, api_key) :: db2.apikeys }
    (.ok { sub := user_id, org := org_id, role := "admin" }, db3)

/-- Outcome of `jwt.decode` on a token: the library either raises (invalid
signature, malformed token, or expired) or yields a payload whose optional
`sub` claim we keep. -/
inductive JwtResult where
  | invalid
  | valid (sub : Option String)
deriving DecidableEq, Repr

/-- The `get_current_user` dependency (bearer-token path).  `dec` is the
`jwt.decode` verifier.  Any exception inside the `try` block — including the
400 raised by `oid` on a malformed subject id — is mapped to a 401 with
detail "Invalid token"; a missing or malformed header is rejected earlier
with detail "Missing bearer token".  On success returns the user id and
document. -/
def get_current_user (db : DB) (dec : String → JwtResult) (authorization : Option String) :
    Except ApiError (String × User) :=
  match authorization with
  | none => .error (.unauthorized "Missing bearer token")
  | some auth =>
    if auth == "" || !(leadsWith "bearer ".toList (pyLower auth).toList) then
      .error (.unauthorized "Missing bearer token")
    else
      let token := String.mk ((auth.toList.dropWhile (fun c => c ≠ ' ')).drop 1)
      match dec token with
      | .invalid => .error (.unauthorized "Invalid token")
      | .valid none => .error (.unauthorized "Invalid token")
      | .valid (some uid) =>
        if uid == "" then .error (.unauthorized "Invalid token")
        else
          match oid uid with
          | .error _ => .error (.unauthorized "Invalid token")
          | .ok _ =>
            match lookup db.users uid with
            | none => .error (.unauthorized "Invalid token")
            | some u => .ok (uid, u)

/-- Request body of POST /v1/tryon/sessions. -/
structure CreateSessionBody where
  product_id : String
  mode : Option String
  source_image_url : Option String
deriving DecidableEq, Repr

/-- The `validate_api_key` helper: a missing (or empty, hence falsy) key
yields `none`; a supplied key must match an active ApiKey record exactly or
the call fails with 401. -/
def validate_api_key (db : DB) (x_api_key : Option String) :
    Except ApiError (Option (String × ApiKey)) :=
  if truthy x_api_key = false then .ok none
  else
    match db.apikeys.find? (fun p => p.2.key == x_api_key.getD "" && p.2.active) with
    | none => .error (.unauthorized "Invalid API key")
    | some p => .ok (some p)

/-- The key gate at the top of `create_tryon_session`:
`validate_api_key(x_api_key) if (x_api_key or require_key) else None`. -/
def keyCheck (cfg : Config) (db : DB) (x_api_key : Option String) :
    Except ApiError (Option (String × ApiKey)) :=
  if truthy x_api_key || cfg.tryonRequireApiKey then validate_api_key db x_api_key
  else .ok none

/-- A parsed upstream response body: the adapter reads only `result_url`. -/
structure FalBody where
  result_url : Option String
deriving DecidableEq, Repr

/-- Behaviour of the upstream HTTP call in live mode: either `requests.post`
raises (transport error or the 30s timeout), or it returns a status code,
the raw text, and the result of `resp.json()` (which itself may raise on a
non-JSON body, carrying that exception's message). -/
inductive FalResponse where
  | exn (msg : String)
  | resp (status : Nat) (text : String) (body : Except String FalBody)
deriving Repr

/-- The live-mode `try` block up to a successful parse: fails fast when
`FAL_KEY` is unset, propagates transport errors, turns a non-200 status into
`"FAL error {status}: {text[:120]}"`, and otherwise extracts the optional
`result_url` from the payload. -/
def falCall (cfg : Config) (fal : FalResponse) : Except String (Option String) :=
  match cfg.falKey with
  | none => .error "FAL_KEY not configured"
  | some _ =>
    match fal with
    | .exn m => .error m
    | .resp status text body =>
      if status ≠ 200 then .error ("FAL error " ++ toString status ++ ": " ++ pyTake text 120)
      else
        match body with
        | .error jm => .error jm
        | .ok b => .ok b.result_url

/-- The `mode` stored on the session: `body.mode or "face"`. -/
def effMode : Option String → String
  | none => "face"
  | some m => if m == "" then "face" else m

/-- The fixed demonstration result returned in sandbox mode. -/
def demoResultUrl : String :=
  "https://images.unsplash.com/photo-1518544801976-3e188ae8e8d1?w=1600&auto=format&fit=crop&q=80"

/-- One write performed on the `tryonsession` collection: the insert with an
initial status, the failed update (sets status and message), or the
completed update (sets status, result_url and message). -/
inductive SessionWrite where
  | create (id : String) (status : SessionStatus)
  | markFailed (id : String) (message : String)
  | markCompleted (id : String) (result_url : Option String) (message : Option String)
deriving DecidableEq, Repr

/-- Whether a write puts the session in a terminal state. -/
def isTerminalWrite : SessionWrite → Bool
  | .create _ _ => false
  | .markFailed _ _ => true
  | .markCompleted _ _ _ => true

/-- The session id a write touches. -/
def writeSessionId : SessionWrite → String
  | .create i _ => i
  | .markFailed i _ => i
  | .markCompleted i _ _ => i

/-- The status a write stores. -/
def writeStatus : SessionWrite → SessionStatus
  | .create _ s => s
  | .markFailed _ _ => .failed
  | .markCompleted _ _ _ => .completed

/-- Successful response body of POST /v1/tryon/sessions. -/
structure SessionResponse where
  id : String
  status : SessionStatus
  result_url : Option String
  message : Option String
deriving DecidableEq, Repr

/-- POST /v1/tryon/sessions.  `fal` is the upstream response (consulted only
in live mode), `freshId` the id the store assigns to the inserted session.
Returns the response or error, the new store, and the ordered trace of
writes on the `tryonsession` collection (the internal updates are keyed by
the freshly returned id, whose re-parse by `oid` always succeeds). -/
def create_tryon_session (cfg : Config) (fal : FalResponse) (db : DB) (freshId : String)
    (body : CreateSessionBody) (x_api_key : Option String) :
    Except ApiError SessionResponse × DB × List SessionWrite :=
  match keyCheck cfg db x_api_key with
  | .error e => (.error e, db, [])
  | .ok _key_info =>
    match oid body.product_id with
    | .error e => (.error e, db, [])
    | .ok pid =>
      match lookup db.products pid with
      | none => (.error (.nfError "Product not found"), db, [])
      | some _prod =>
        let sess : TryOnSession :=
          { product_id := body.product_id, mode := effMode body.mode,
            source_image_url := body.source_image_url, status := .processing,
            result_url := none, message := none }
        let db1 : DB := { db with sessions := (freshId, sess) :: db.sessions }
        if cfg.falLive then
          match falCall cfg fal with
          | .error e =>
            let db2 := updSessions db1 freshId
              (fun s => { s with status := .failed, message := some (pyTake e 200) })
            (.error (.upstream ("Upstream error: " ++ pyTake e 160)), db2,
             [.create freshId .processing, .markFailed freshId (pyTake e 200)])
          | .ok r =>
            let msg : Option String := some "processed via FAL"
            let db2 := updSessions db1 freshId
              (fun s => { s with status := .completed, result_url := r, message := msg })
            (.ok { id := freshId, status := .completed, result_url := r, message := msg }, db2,
             [.create freshId .processing, .markCompleted freshId r msg])
        else
          let r : Option String := some demoResultUrl
          let msg : Option String := some "sandbox demo (no credits used)"
          let db2 := updSessions db1 freshId
            (fun s => { s with status := .completed, result_url := r, message := msg })
          (.ok { id := freshId, status := .completed, result_url := r, message := msg }, db2,
           [.create freshId .processing, .markCompleted freshId r msg])

/-! Concrete fixtures used by witnesses and counterexamples. -/

/-- A well-formed ObjectId string for a product. -/
def pid1 : String := "000000000000000000000001"

/-- A well-formed ObjectId string the store assigns to a new session. -/
def sid1 : String := "000000000000000000000002"

/-- A catalog product. -/
def prod1 : Product :=
  { title := "Shades", sku := none, type := .eyewear, model_url := none, thumbnail_url := none }

/-- A store holding the single product `prod1` under `pid1`. -/
def dbWithProduct : DB := { emptyDB with products := [(pid1, prod1)] }

/-- An upstream transport failure (never consulted in sandbox mode). -/
def falNone : FalResponse := .exn "network unreachable"

/-- Sandbox configuration, key not required. -/
def sandboxCfg : Config := { tryonRequireApiKey := false, falLive := false, falKey := none }

/-- Sandbox configuration with TRYON_REQUIRE_API_KEY set. -/
def requireKeyCfg : Config := { tryonRequireApiKey := true, falLive := false, falKey := none }

/-- Live configuration with an upstream credential configured. -/
def liveCfg : Config := { tryonRequireApiKey := false, falLive := true, falKey := some "fal-key" }

/-- A session-creation request for a given product id. -/
def bodyFor (pid : String) : CreateSessionBody :=
  { product_id := pid, mode := some "face", source_image_url := none }

/-- Truncation really bounds the length: `s[:n]` has at most `n` characters. -/
theorem pyTake_length_le (s : String) (n : Nat) : (pyTake s n).length ≤ n := by
  show (s.toList.take n).length ≤ n
  exact List.length_take_le n s.toList

/-! Claim theorems. -/

/-- C1 (code bug shown on the code): with `TRYON_REQUIRE_API_KEY` set and no
`x-api-key` header supplied, the request is NOT rejected with 401 —
`validate_api_key` returns `None` for a missing key, so the session is
created and completes — while a supplied key that matches no active ApiKey
record is rejected with 401 as the claim states. -/
theorem C1_require_key_not_enforced :
    (create_tryon_session requireKeyCfg falNone dbWithProduct sid1 (bodyFor pid1) none).1 =
      .ok { id := sid1, status := .completed, result_url := some demoResultUrl,
            message := some "sandbox demo (no credits used)" } ∧
    (create_tryon_session requireKeyCfg falNone dbWithProduct sid1 (bodyFor pid1)
        (some "vf_wrong")).1 = .error (.unauthorized "Invalid API key") ∧
    (ApiError.unauthorized "Invalid API key").statusCode = 401 :=
  ⟨rfl, rfl, rfl⟩

/-- C5 counterexample: a product id that does not reference an existing
Product but is not a well-formed ObjectId ("nope") makes the request fail
with 400 "Invalid id", not with NotFound (404); no session is persisted. -/
theorem C5_counterexample :
    (create_tryon_session sandboxCfg falNone dbWithProduct sid1 (bodyFor "nope") none).1 =
      .error (.badRequest "Invalid id") ∧
    (ApiError.badRequest "Invalid id").statusCode ≠ 404 ∧
    (create_tryon_session sandboxCfg falNone dbWithProduct sid1 (bodyFor "nope") none).2.1 =
      dbWithProduct ∧
    (create_tryon_session sandboxCfg falNone dbWithProduct sid1 (bodyFor "nope") none).2.2 = [] :=
  ⟨rfl, by decide, rfl, rfl⟩

/-- C6 counterexample: a missing Authorization header fails with detail
"Missing bearer token" while a well-formed header carrying an invalid token
fails with detail "Invalid token" — the two 401 responses differ, so the
failures are not identical and reveal which check failed. -/
theorem C6_counterexample :
    get_current_user emptyDB (fun _ => .invalid) none =
      .error (.unauthorized "Missing bearer token") ∧
    get_current_user emptyDB (fun _ => .invalid) (some "Bearer abc") =
      .error (.unauthorized "Invalid token") ∧
    ApiError.unauthorized "Missing bearer token" ≠ ApiError.unauthorized "Invalid token" :=
  ⟨rfl, rfl, by decide⟩

/-- C9 (code bug shown on the code): two signups with distinct emails but
the same organization name create two distinct Organization records with the
same slug "acme-corp" — the code derives the slug from the name but never
enforces the uniqueness that both the spec and the schema's own field
description ("Unique slug identifier") declare. -/
theorem C9_slug_collision :
    lookup (signup (signup emptyDB "o1" "u1" "k1" "s1" "h1"
        { name := "Alice", email := "alice@example.com", password := "pw1",
          organization_name := "Acme Corp" }).2 "o2" "u2" "k2" "s2" "h2"
        { name := "Bob", email := "bob@example.com", password := "pw2",
          organization_name := "Acme Corp" }).2.organizations "o1" =
      some { name := "Acme Corp", slug := "acme-corp", plan := .free } ∧
    lookup (signup (signup emptyDB "o1" "u1" "k1" "s1" "h1"
        { name := "Alice", email := "alice@example.com", password := "pw1",
          organization_name := "Acme Corp" }).2 "o2" "u2" "k2" "s2" "h2"
        { name := "Bob", email := "bob@example.com", password := "pw2",
          organization_name := "Acme Corp" }).2.organizations "o2" =
      some { name := "Acme Corp", slug := "acme-corp", plan := .free } ∧
    ("o1" : String) ≠ "o2" :=
  ⟨rfl, rfl, by decide⟩

/-- A stored user used by witnesses. -/
def user1 : User :=
  { name := "Alice", email := "alice@example.com", password_hash := "h",
    organization_id := "o1", role := .admin }

/-- A store holding the single user `user1`. -/
def dbWithUser : DB := { emptyDB with users := [("u1", user1)] }

/-- C2: every execution of `create_tryon_session` either touches the session
collection not at all (the request was rejected before the commit point), or
performs exactly the insert with status=processing followed by exactly one
further write, which is terminal (completed or failed, never processing),
on the same session — and the whole trace is complete before the function
returns its response, since the endpoint is synchronous. -/
theorem C2_single_terminal_update (cfg : Config) (fal : FalResponse) (db : DB)
    (freshId : String) (body : CreateSessionBody) (x : Option String) :
    (create_tryon_session cfg fal db freshId body x).2.2 = [] ∨
    ∃ w, (create_tryon_session cfg fal db freshId body x).2.2 =
        [SessionWrite.create freshId SessionStatus.processing, w] ∧
      writeSessionId w = freshId ∧ isTerminalWrite w = true ∧
      writeStatus w ≠ SessionStatus.processing := by
  unfold create_tryon_session
  split
  · exact Or.inl rfl
  · split
    · exact Or.inl rfl
    · split
      · exact Or.inl rfl
      · split
        · split
          · exact Or.inr ⟨_, rfl, rfl, rfl, by simp [writeStatus]⟩
          · exact Or.inr ⟨_, rfl, rfl, rfl, by simp [writeStatus]⟩
        · exact Or.inr ⟨_, rfl, rfl, rfl, by simp [writeStatus]⟩

/-- C3: in live mode, whenever the adapter call fails (missing FAL_KEY,
transport error, non-200 status, or unparsable body), the already-persisted
session is first updated to status=failed with the error message truncated
to at most 200 characters, and only then does the request fail with a 502
whose embedded message is the error truncated to at most 160 characters; the
write trace shows the failed update precedes the error return. -/
theorem C3_upstream_failure_recorded_then_reported (cfg : Config) (fal : FalResponse)
    (db : DB) (freshId : String) (body : CreateSessionBody) (x : Option String)
    (ki : Option (String × ApiKey)) (prod : Product) (e : String)
    (hlive : cfg.falLive = true)
    (hkey : keyCheck cfg db x = .ok ki)
    (hoid : isValidOid body.product_id = true)
    (hprod : lookup db.products body.product_id = some prod)
    (hfal : falCall cfg fal = .error e) :
    (create_tryon_session cfg fal db freshId body x).1 =
      .error (.upstream ("Upstream error: " ++ pyTake e 160)) ∧
    (pyTake e 160).length ≤ 160 ∧
    lookup (create_tryon_session cfg fal db freshId body x).2.1.sessions freshId = some
      { product_id := body.product_id, mode := effMode body.mode,
        source_image_url := body.source_image_url, status := .failed,
        result_url := none, message := some (pyTake e 200) } ∧
    (pyTake e 200).length ≤ 200 ∧
    (create_tryon_session cfg fal db freshId body x).2.2 =
      [SessionWrite.create freshId SessionStatus.processing,
       SessionWrite.markFailed freshId (pyTake e 200)] := by
  have h1 : oid body.product_id = .ok body.product_id := by simp [oid, hoid]
  simp only [create_tryon_session, hkey, h1, hprod, hlive, hfal, if_true]
  refine ⟨trivial, pyTake_length_le e 160, ?_, pyTake_length_le e 200, trivial⟩
  simp [lookup, updSessions, List.find?]

/-- C3 witness: a live-mode transport failure on a valid product. -/
theorem C3_upstream_failure_witness :
    (create_tryon_session liveCfg falNone dbWithProduct sid1 (bodyFor pid1) none).1 =
      .error (.upstream ("Upstream error: " ++ pyTake "network unreachable" 160)) ∧
    (pyTake "network unreachable" 160).length ≤ 160 ∧
    lookup (create_tryon_session liveCfg falNone dbWithProduct sid1
        (bodyFor pid1) none).2.1.sessions sid1 = some
      { product_id := pid1, mode := effMode (some "face"), source_image_url := none,
        status := .failed, result_url := none,
        message := some (pyTake "network unreachable" 200) } ∧
    (pyTake "network unreachable" 200).length ≤ 200 ∧
    (create_tryon_session liveCfg falNone dbWithProduct sid1 (bodyFor pid1) none).2.2 =
      [SessionWrite.create sid1 SessionStatus.processing,
       SessionWrite.markFailed sid1 (pyTake "network unreachable" 200)] :=
  C3_upstream_failure_recorded_then_reported liveCfg falNone dbWithProduct sid1
    (bodyFor pid1) none none prod1 "network unreachable" rfl rfl rfl rfl rfl

/-- C4: in sandbox mode, with the key gate passing and a well-formed product
id referencing an existing product, the request always succeeds with
status=completed and the fixed demo result URL, the persisted session is
completed with that URL (never failed, never left processing), and the trace
is the insert followed by the single completed update. -/
theorem C4_sandbox_always_completes (cfg : Config) (fal : FalResponse) (db : DB)
    (freshId : String) (body : CreateSessionBody) (x : Option String)
    (ki : Option (String × ApiKey)) (prod : Product)
    (hsand : cfg.falLive = false)
    (hkey : keyCheck cfg db x = .ok ki)
    (hoid : isValidOid body.product_id = true)
    (hprod : lookup db.products body.product_id = some prod) :
    (create_tryon_session cfg fal db freshId body x).1 =
      .ok { id := freshId, status := .completed, result_url := some demoResultUrl,
            message := some "sandbox demo (no credits used)" } ∧
    lookup (create_tryon_session cfg fal db freshId body x).2.1.sessions freshId = some
      { product_id := body.product_id, mode := effMode body.mode,
        source_image_url := body.source_image_url, status := .completed,
        result_url := some demoResultUrl, message := some "sandbox demo (no credits used)" } ∧
    (create_tryon_session cfg fal db freshId body x).2.2 =
      [SessionWrite.create freshId SessionStatus.processing,
       SessionWrite.markCompleted freshId (some demoResultUrl)
         (some "sandbox demo (no credits used)")] := by
  have h1 : oid body.product_id = .ok body.product_id := by simp [oid, hoid]
  simp only [create_tryon_session, hkey, h1, hprod, hsand, Bool.false_eq_true, if_false]
  refine ⟨trivial, ?_, trivial⟩
  simp [lookup, updSessions, List.find?]

/-- C4 witness: a sandbox request for the stored product. -/
theorem C4_sandbox_witness :
    (create_tryon_session sandboxCfg falNone dbWithProduct sid1 (bodyFor pid1) none).1 =
      .ok { id := sid1, status := .completed, result_url := some demoResultUrl,
            message := some "sandbox demo (no credits used)" } ∧
    lookup (create_tryon_session sandboxCfg falNone dbWithProduct sid1
        (bodyFor pid1) none).2.1.sessions sid1 = some
      { product_id := pid1, mode := effMode (some "face"), source_image_url := none,
        status := .completed, result_url := some demoResultUrl,
        message := some "sandbox demo (no credits used)" } ∧
    (create_tryon_session sandboxCfg falNone dbWithProduct sid1 (bodyFor pid1) none).2.2 =
      [SessionWrite.create sid1 SessionStatus.processing,
       SessionWrite.markCompleted sid1 (some demoResultUrl)
         (some "sandbox demo (no credits used)")] :=
  C4_sandbox_always_completes sandboxCfg falNone dbWithProduct sid1 (bodyFor pid1)
    none none prod1 rfl rfl rfl rfl

/-- C5 (amended): provided the key gate passes, a well-formed product id
that references no existing Product makes the request fail with NotFound
(404) and nothing is persisted; a malformed product id instead fails with
400 "Invalid id", likewise persisting nothing — validation precedes any
write in both cases. -/
theorem C5_missing_product_amended (cfg : Config) (fal : FalResponse) (db : DB)
    (freshId : String) (body : CreateSessionBody) (x : Option String)
    (ki : Option (String × ApiKey))
    (hkey : keyCheck cfg db x = .ok ki)
    (hmiss : isValidOid body.product_id = false ∨
      lookup db.products body.product_id = none) :
    ((create_tryon_session cfg fal db freshId body x).1 = .error (.badRequest "Invalid id") ∨
     (create_tryon_session cfg fal db freshId body x).1 =
       .error (.nfError "Product not found")) ∧
    (isValidOid body.product_id = true →
      (create_tryon_session cfg fal db freshId body x).1 =
        .error (.nfError "Product not found")) ∧
    (create_tryon_session cfg fal db freshId body x).2.1 = db ∧
    (create_tryon_session cfg fal db freshId body x).2.2 = [] := by
  cases hv : isValidOid body.product_id with
  | false =>
    have h1 : oid body.product_id = .error (.badRequest "Invalid id") := by simp [oid, hv]
    have hout : create_tryon_session cfg fal db freshId body x =
        (.error (.badRequest "Invalid id"), db, []) := by
      simp only [create_tryon_session, hkey, h1]
    rw [hout]
    exact ⟨Or.inl rfl, fun ht => absurd ht (by simp [hv]), rfl, rfl⟩
  | true =>
    have h1 : oid body.product_id = .ok body.product_id := by simp [oid, hv]
    have h2 : lookup db.products body.product_id = none := by
      rcases hmiss with hm | hm
      · rw [hv] at hm; cases hm
      · exact hm
    have hout : create_tryon_session cfg fal db freshId body x =
        (.error (.nfError "Product not found"), db, []) := by
      simp only [create_tryon_session, hkey, h1, h2]
    rw [hout]
    exact ⟨Or.inr rfl, fun _ => rfl, rfl, rfl⟩

/-- C5 witness: a well-formed but absent product id fails with 404 and
leaves the store untouched. -/
theorem C5_missing_product_witness :
    ((create_tryon_session sandboxCfg falNone dbWithProduct sid1
        (bodyFor "ffffffffffffffffffffffff") none).1 = .error (.badRequest "Invalid id") ∨
     (create_tryon_session sandboxCfg falNone dbWithProduct sid1
        (bodyFor "ffffffffffffffffffffffff") none).1 =
       .error (.nfError "Product not found")) ∧
    (isValidOid "ffffffffffffffffffffffff" = true →
      (create_tryon_session sandboxCfg falNone dbWithProduct sid1
        (bodyFor "ffffffffffffffffffffffff") none).1 =
        .error (.nfError "Product not found")) ∧
    (create_tryon_session sandboxCfg falNone dbWithProduct sid1
        (bodyFor "ffffffffffffffffffffffff") none).2.1 = dbWithProduct ∧
    (create_tryon_session sandboxCfg falNone dbWithProduct sid1
        (bodyFor "ffffffffffffffffffffffff") none).2.2 = [] :=
  C5_missing_product_amended sandboxCfg falNone dbWithProduct sid1
    (bodyFor "ffffffffffffffffffffffff") none none rfl (Or.inr rfl)

/-- C6 (amended): every failure of the bearer-token path is a 401; after the
header-shape check passes, all failures — invalid/expired token, missing
subject claim, malformed subject id, or a subject user absent from the
store — are identical (detail "Invalid token"), but a missing or malformed
Authorization header is distinguishable by its detail "Missing bearer
token". -/
theorem C6_bearer_failures_amended (db : DB) (dec : String → JwtResult)
    (auth : Option String) (e : ApiError)
    (h : get_current_user db dec auth = .error e) :
    e.statusCode = 401 ∧
    (e = .unauthorized "Missing bearer token" ∨ e = .unauthorized "Invalid token") ∧
    (∀ a, auth = some a →
      (a == "" || !(leadsWith "bearer ".toList (pyLower a).toList)) = false →
      e = .unauthorized "Invalid token") := by
  have main : (e = .unauthorized "Missing bearer token" ∨
      e = .unauthorized "Invalid token") ∧
      (∀ a, auth = some a →
        (a == "" || !(leadsWith "bearer ".toList (pyLower a).toList)) = false →
        e = .unauthorized "Invalid token") := by
    cases auth with
    | none =>
      simp only [get_current_user] at h
      injection h with h2
      exact ⟨Or.inl h2.symm, fun a ha _ => Option.noConfusion ha⟩
    | some a =>
      simp only [get_current_user] at h
      by_cases hc : (a == "" || !(leadsWith "bearer ".toList (pyLower a).toList)) = true
      · rw [if_pos hc] at h
        injection h with h2
        refine ⟨Or.inl h2.symm, fun a' ha' hok => ?_⟩
        injection ha' with ha2
        rw [← ha2] at hok
        rw [hok] at hc
        cases hc
      · rw [if_neg hc] at h
        have he : e = .unauthorized "Invalid token" := by
          cases hdec : dec (String.mk ((a.toList.dropWhile (fun c => c ≠ ' ')).drop 1)) with
          | invalid =>
            rw [hdec] at h; injection h with h2; exact h2.symm
          | valid sub =>
            rw [hdec] at h
            cases sub with
            | none => injection h with h2; exact h2.symm
            | some uid =>
              dsimp only [] at h
              by_cases hu : (uid == "") = true
              · rw [if_pos hu] at h; injection h with h2; exact h2.symm
              · rw [if_neg hu] at h
                cases ho : oid uid with
                | error e2 =>
                  rw [ho] at h; injection h with h2; exact h2.symm
                | ok u2 =>
                  rw [ho] at h
                  cases hl : lookup db.users uid with
                  | none => rw [hl] at h; injection h with h2; exact h2.symm
                  | some u => rw [hl] at h; exact Except.noConfusion h
        exact ⟨Or.inr he, fun a' ha' _ => he⟩
  refine ⟨?_, main.1, main.2⟩
  rcases main.1 with he | he <;> rw [he] <;> rfl

/-- C6 witness: the missing-header failure instantiates the amended claim. -/
theorem C6_bearer_failures_witness :
    (ApiError.unauthorized "Missing bearer token").statusCode = 401 ∧
    (ApiError.unauthorized "Missing bearer token" = .unauthorized "Missing bearer token" ∨
     ApiError.unauthorized "Missing bearer token" = .unauthorized "Invalid token") ∧
    (∀ a, (none : Option String) = some a →
      (a == "" || !(leadsWith "bearer ".toList (pyLower a).toList)) = false →
      ApiError.unauthorized "Missing bearer token" = .unauthorized "Invalid token") :=
  C6_bearer_failures_amended emptyDB (fun _ => .invalid) none
    (.unauthorized "Missing bearer token") rfl

/-- C7: a signup whose email already belongs to a stored user fails with
Conflict (409) and returns the store unchanged — no Organization, User or
ApiKey record is created. -/
theorem C7_signup_conflict_no_writes (db : DB)
    (org_id user_id key_id key_suffix password_hash : String) (body : SignupBody)
    (h : (db.users.find? (fun p => p.2.email == body.email)).isSome = true) :
    signup db org_id user_id key_id key_suffix password_hash body =
      (.error (.conflict "Email already registered"), db) ∧
    (ApiError.conflict "Email already registered").statusCode = 409 := by
  constructor
  · simp [signup, h]
  · rfl

/-- C7 witness: re-registering the stored user's email. -/
theorem C7_signup_conflict_witness :
    signup dbWithUser "o2" "u2" "k2" "suffix2" "hash2"
      { name := "Mallory", email := "alice@example.com", password := "pw",
        organization_name := "Other Org" } =
      (.error (.conflict "Email already registered"), dbWithUser) ∧
    (ApiError.conflict "Email already registered").statusCode = 409 :=
  C7_signup_conflict_no_writes dbWithUser "o2" "u2" "k2" "suffix2" "hash2"
    { name := "Mallory", email := "alice@example.com", password := "pw",
      organization_name := "Other Org" } rfl

/-- C8: in live mode, a 200 upstream response whose parsed payload has no
`result_url` field still finalizes the session as completed with an absent
result_url and the success message — the missing field is not treated as an
upstream error. -/
theorem C8_absent_result_url_completed (cfg : Config) (db : DB) (freshId : String)
    (body : CreateSessionBody) (x : Option String) (ki : Option (String × ApiKey))
    (prod : Product) (k text : String)
    (hlive : cfg.falLive = true) (hk : cfg.falKey = some k)
    (hkey : keyCheck cfg db x = .ok ki)
    (hoid : isValidOid body.product_id = true)
    (hprod : lookup db.products body.product_id = some prod) :
    (create_tryon_session cfg (.resp 200 text (.ok { result_url := none }))
        db freshId body x).1 =
      .ok { id := freshId, status := .completed, result_url := none,
            message := some "processed via FAL" } ∧
    lookup (create_tryon_session cfg (.resp 200 text (.ok { result_url := none }))
        db freshId body x).2.1.sessions freshId = some
      { product_id := body.product_id, mode := effMode body.mode,
        source_image_url := body.source_image_url, status := .completed,
        result_url := none, message := some "processed via FAL" } := by
  have h1 : oid body.product_id = .ok body.product_id := by simp [oid, hoid]
  have hfal : falCall cfg (.resp 200 text (.ok { result_url := none })) = .ok none := by
    simp [falCall, hk]
  simp only [create_tryon_session, hkey, h1, hprod, hlive, hfal, if_true]
  refine ⟨trivial, ?_⟩
  simp [lookup, updSessions, List.find?]

/-- C8 witness: a live 200 response with an empty JSON object body. -/
theorem C8_absent_result_url_witness :
    (create_tryon_session liveCfg (.resp 200 "{}" (.ok { result_url := none }))
        dbWithProduct sid1 (bodyFor pid1) none).1 =
      .ok { id := sid1, status := .completed, result_url := none,
            message := some "processed via FAL" } ∧
    lookup (create_tryon_session liveCfg (.resp 200 "{}" (.ok { result_url := none }))
        dbWithProduct sid1 (bodyFor pid1) none).2.1.sessions sid1 = some
      { product_id := pid1, mode := effMode (some "face"), source_image_url := none,
        status := .completed, result_url := none, message := some "processed via FAL" } :=
  C8_absent_result_url_completed liveCfg dbWithProduct sid1 (bodyFor pid1) none none
    prod1 "fal-key" "{}" rfl rfl rfl rfl rfl

/-- C10: when a non-empty key is supplied that matches no active ApiKey
record, the request fails with 401 "Invalid API key" for every request body
— including a malformed or nonexistent product id — and the store is
untouched: the key validation runs before the product id is even parsed. -/
theorem C10_key_validated_before_product (cfg : Config) (fal : FalResponse) (db : DB)
    (freshId : String) (body : CreateSessionBody) (k : String)
    (hk : k ≠ "")
    (hmiss : db.apikeys.find? (fun p => p.2.key == k && p.2.active) = none) :
    create_tryon_session cfg fal db freshId body (some k) =
      (.error (.unauthorized "Invalid API key"), db, []) := by
  have hval : validate_api_key db (some k) = .error (.unauthorized "Invalid API key") := by
    simp [validate_api_key, truthy, hk, hmiss]
  have hkc : keyCheck cfg db (some k) = .error (.unauthorized "Invalid API key") := by
    simp [keyCheck, truthy, hk, hval]
  simp only [create_tryon_session, hkc]

/-- C10 witness: an unknown key together with a malformed product id is
rejected with 401, not 400, and nothing is written. -/
theorem C10_key_validated_witness :
    create_tryon_session sandboxCfg falNone dbWithProduct sid1 (bodyFor "nope")
      (some "vf_x") = (.error (.unauthorized "Invalid API key"), dbWithProduct, []) :=
  C10_key_validated_before_product sandboxCfg falNone dbWithProduct sid1
    (bodyFor "nope") "vf_x" (by decide) rfl

end VisionFit
